import Mathlib

/-!
Verification development for the Vcipl custom promotional scheme app.

The embedding models the two Python modules of the repository:
  * custom_promotional_scheme.py (scheme validation, active-scheme lookup,
    party/item matching and effect application on invoice submission), and
  * custom_promotional_scheme_report.py (the aggregation report).

Numbers (rates, amounts, quantities) are modelled as rationals; "flt" of the
host is the identity on that model.  Optional document fields are Options;
Python truthiness of a string field treats None and the empty string as
falsy, and truthiness of a numeric field treats None and 0 as falsy.
External collaborators (the item/customer/supplier catalog and the invoice
tables reached through SQL) are modelled as explicit list-valued stores.
-/

namespace PromoScheme

/-- Truthiness of an optional string field as Python sees it: None and the
empty string are falsy. -/
def truthyStr : Option String → Bool
  | none => false
  | some s => s != ""

/-- Truthiness of an optional numeric field as Python sees it: None and 0 are
falsy. -/
def truthyRat : Option Rat → Bool
  | none => false
  | some v => v != 0

/-- Model of the host helper flt applied to a possibly missing numeric field:
flt(None) = 0, flt(x) = x; also models the idiom flt(field or 0), which
agrees with it. -/
def flt0 : Option Rat → Rat
  | none => 0
  | some v => v

/-- A child table value on a scheme document: either a plain list of strings
(the multiselect style the extractor special-cases) or a list of dict-like
child rows, each an association list of field names to string values in
insertion order. -/
inductive ChildTable where
  | strs (vals : List String)
  | rows (rs : List (List (String × String)))
deriving DecidableEq

/-- Python truthiness of the child table value itself (a non-empty list). -/
def ChildTable.isNonempty : ChildTable → Bool
  | .strs vals => !vals.isEmpty
  | .rows rs => !rs.isEmpty

/-- Metadata keys skipped by the fallback branch of the child-row extractor. -/
def metaKeys : List String := ["idx", "name", "parent", "parentfield", "parenttype", "doctype"]

/-- Lookup of a key in a dict-like row (dict keys are unique; the first match
is the binding). -/
def lookupKey (row : List (String × String)) (k : String) : Option String :=
  (row.find? (fun p => p.1 == k)).map (fun p => p.2)

/-- The loop of _extract_values_from_child_rows over possible_keys: the first
key that is present in the row with a truthy value wins. -/
def tryKeys (row : List (String × String)) : List String → Option String
  | [] => none
  | k :: ks =>
    match lookupKey row k with
    | some v => if v != "" then some v else tryKeys row ks
    | none => tryKeys row ks

/-- The for-else fallback of _extract_values_from_child_rows: first
non-metadata field of the row with a truthy value. -/
def fallbackValue (row : List (String × String)) : Option String :=
  (row.find? (fun p => !metaKeys.contains p.1 && p.2 != "")).map (fun p => p.2)

/-- Value contributed by one dict-like child row: a possible_keys hit, else
the fallback; rows with no recognizable value contribute nothing. -/
def extractFromRow (keys : List String) (row : List (String × String)) : Option String :=
  match tryKeys row keys with
  | some v => some v
  | none => fallbackValue row

/-- Embedding of _extract_values_from_child_rows of the doctype module: the
plain-string branch adds every element, the dict branch extracts per row. -/
def extractValuesFromChildRows (tbl : ChildTable) (keys : List String) : Finset String :=
  match tbl with
  | .strs vals => vals.toFinset
  | .rows rs => (rs.filterMap (extractFromRow keys)).toFinset

/-- Embedding of _extract_values_from_child_rows of the report module, whose
plain-string branch adds only truthy strings. -/
def extractValuesFromChildRowsR (tbl : ChildTable) (keys : List String) : Finset String :=
  match tbl with
  | .strs vals => (vals.filter (fun v => v != "")).toFinset
  | .rows rs => (rs.filterMap (extractFromRow keys)).toFinset

/-- A Custom Promotional Scheme document, with the fields the two modules
read.  Dates are modelled as integers (getdate yields a totally ordered
date). -/
structure SchemeDoc where
  name : String
  scheme_name : Option String := none
  select_the_party : Option String := none
  valid_from : Option Int := none
  valid_to : Option Int := none
  apply_on : Option String := none
  type_of_promo_validation : Option String := none
  minimum_amount : Option Rat := none
  discount_percentage : Option Rat := none
  minimum_quantity : Option Rat := none
  free_quantity : Option Rat := none
  customer : ChildTable := .strs []
  customer_group : ChildTable := .strs []
  territory : ChildTable := .strs []
  supplier : ChildTable := .strs []
  supplier_group : ChildTable := .strs []
  promotional_scheme_on_item_code : ChildTable := .strs []
  promotional_scheme_on_item_group : ChildTable := .strs []
deriving DecidableEq

/-- An Item catalog record (the fields the group-expansion query reads). -/
structure CatItem where
  name : String
  item_group : String
deriving DecidableEq

/-- A Customer catalog record. -/
structure CatCustomer where
  name : String
  customer_group : String
  territory : String
deriving DecidableEq

/-- A Supplier catalog record. -/
structure CatSupplier where
  name : String
  supplier_group : String
deriving DecidableEq

/-- The external item/party catalog the frappe.get_all expansion queries run
against. -/
structure Catalog where
  items : List CatItem := []
  customers : List CatCustomer := []
  suppliers : List CatSupplier := []

/-- Query: names of items whose item_group is in the given set. -/
def Catalog.itemsInGroups (cat : Catalog) (gs : Finset String) : List String :=
  (cat.items.filter (fun i => decide (i.item_group ∈ gs))).map (fun i => i.name)

/-- Query: names of customers whose customer_group is in the given set. -/
def Catalog.customersInGroups (cat : Catalog) (gs : Finset String) : List String :=
  (cat.customers.filter (fun c => decide (c.customer_group ∈ gs))).map (fun c => c.name)

/-- Query: names of customers whose territory is in the given set. -/
def Catalog.customersInTerritories (cat : Catalog) (ts : Finset String) : List String :=
  (cat.customers.filter (fun c => decide (c.territory ∈ ts))).map (fun c => c.name)

/-- Query: names of suppliers whose supplier_group is in the given set. -/
def Catalog.suppliersInGroups (cat : Catalog) (gs : Finset String) : List String :=
  (cat.suppliers.filter (fun c => decide (c.supplier_group ∈ gs))).map (fun c => c.name)

/-- The dict returned by _extract_party_values_from_scheme: one set per party
dimension. -/
structure PartiesDict where
  customers : Finset String
  customer_groups : Finset String
  territories : Finset String
  suppliers : Finset String
  supplier_groups : Finset String
deriving DecidableEq

/-- Embedding of _extract_party_values_from_scheme of the doctype module: the
raw declared sets per dimension, with no catalog expansion. -/
def extract_party_values_from_scheme (s : SchemeDoc) : PartiesDict :=
  { customers := extractValuesFromChildRows s.customer ["customer", "item", "value"]
    customer_groups := extractValuesFromChildRows s.customer_group ["customer_group", "item", "value", "group"]
    territories := extractValuesFromChildRows s.territory ["territory", "item", "value"]
    suppliers := extractValuesFromChildRows s.supplier ["supplier", "item", "value"]
    supplier_groups := extractValuesFromChildRows s.supplier_group ["supplier_group", "item", "value", "group"] }

/-- Embedding of _extract_item_codes_from_scheme of the doctype module:
declared item codes, plus the Item-catalog expansion of declared item
groups when any group is declared. -/
def extract_item_codes_from_scheme (cat : Catalog) (s : SchemeDoc) : Finset String :=
  let item_codes := extractValuesFromChildRows s.promotional_scheme_on_item_code ["item_code", "item"]
  let item_group_vals := extractValuesFromChildRows s.promotional_scheme_on_item_group ["item_group", "group"]
  if item_group_vals ≠ ∅ then item_codes ∪ (cat.itemsInGroups item_group_vals).toFinset
  else item_codes

/-- An invoice line item, with the fields the engine reads or writes. -/
structure LineItem where
  item_code : Option String := none
  item_name : Option String := none
  qty : Option Rat := none
  rate : Option Rat := none
  amount : Option Rat := none
  base_rate : Option Rat := none
  base_amount : Option Rat := none
  base_net_amount : Option Rat := none
  discount_percentage : Option Rat := none
  promotional_scheme_applied : Option String := none
  is_free_item : Nat := 0
deriving DecidableEq

/-- A Sales or Purchase Invoice document as the submission hook sees it. -/
structure InvoiceDoc where
  doctype : String
  customer : Option String := none
  customer_group : Option String := none
  territory : Option String := none
  supplier : Option String := none
  supplier_group : Option String := none
  items : List LineItem := []
deriving DecidableEq

/-- One dimension check of _invoice_party_matches: the dimension fails when
it is declared (non-empty) and the invoice attribute is falsy or not a
member. -/
def failDim (declared : Finset String) (attr : Option String) : Bool :=
  decide (declared ≠ ∅) && (!truthyStr attr || decide ((attr.getD "") ∉ declared))

/-- The has-any-party-limit test at the top of _invoice_party_matches. -/
def PartiesDict.has_any_party_limit (p : PartiesDict) : Bool :=
  decide (p.customers ≠ ∅) || decide (p.customer_groups ≠ ∅) || decide (p.territories ≠ ∅) ||
    decide (p.suppliers ≠ ∅) || decide (p.supplier_groups ≠ ∅)

/-- Embedding of _invoice_party_matches: no declared dimension means a global
match; otherwise a Sales Invoice is checked against the selling-side
dimensions and a Purchase Invoice against the buying-side dimensions, any
declared failing dimension returning False. -/
def invoice_party_matches (doc : InvoiceDoc) (p : PartiesDict) : Bool :=
  if !p.has_any_party_limit then true
  else if doc.doctype == "Sales Invoice" &&
      (failDim p.customers doc.customer || failDim p.customer_groups doc.customer_group ||
       failDim p.territories doc.territory) then false
  else if doc.doctype == "Purchase Invoice" &&
      (failDim p.suppliers doc.supplier || failDim p.supplier_groups doc.supplier_group) then false
  else true

/-- Embedding of apply_discount_to_invoice on a single line item: the rate is
reduced by discount_pct percent and the discount and scheme markers are
recorded. -/
def apply_discount_to_item (discount_pct : Rat) (scheme_name : String) (it : LineItem) : LineItem :=
  let original_rate := flt0 it.rate
  let discount_value := original_rate * (discount_pct / 100)
  { it with
    rate := some (original_rate - discount_value)
    discount_percentage := some discount_pct
    promotional_scheme_applied := some scheme_name }

/-- Embedding of apply_discount_to_invoice: in the source the matched rows of
doc.items are mutated in place; since matching selects rows by a predicate
on the row value, the mutation rewrites exactly the rows satisfying that
predicate. -/
def apply_discount_to_invoice (doc : InvoiceDoc) (isMatched : LineItem → Bool)
    (discount_pct : Rat) (scheme_name : String) : InvoiceDoc :=
  { doc with items := doc.items.map (fun it =>
      if isMatched it then apply_discount_to_item discount_pct scheme_name it else it) }

/-- The synthetic free-goods row built by add_free_items_to_invoice for one
matched item (fields the source dict does not set are absent). -/
def free_item_row (free_qty : Rat) (scheme_name : String) (it : LineItem) : LineItem :=
  { item_code := it.item_code
    item_name := it.item_name
    qty := some free_qty
    rate := some 0
    amount := some 0
    base_rate := some 0
    base_amount := some 0
    base_net_amount := none
    discount_percentage := none
    promotional_scheme_applied := some scheme_name
    is_free_item := 1 }

/-- Embedding of add_free_items_to_invoice: one synthetic row per matched
item is appended, in order, after the existing items. -/
def add_free_items_to_invoice (doc : InvoiceDoc) (matching_items : List LineItem)
    (free_qty : Rat) (scheme_name : String) : InvoiceDoc :=
  { doc with items := doc.items ++ matching_items.map (free_item_row free_qty scheme_name) }

/-- The item-match test of apply_promotional_schemes when the scheme declares
item codes: getattr(it, "item_code", None) in item_codes. -/
def itemMatches (item_codes : Finset String) (it : LineItem) : Bool :=
  match it.item_code with
  | some c => decide (c ∈ item_codes)
  | none => false

/-- The predicate that selects the matched rows of the invoice: membership in
the resolved item codes, or every row when the scheme declares none. -/
def matchPred (item_codes : Finset String) (it : LineItem) : Bool :=
  if item_codes ≠ ∅ then itemMatches item_codes it else true

/-- The matching_items list of apply_promotional_schemes. -/
def matching_items_for (item_codes : Finset String) (doc : InvoiceDoc) : List LineItem :=
  if item_codes ≠ ∅ then doc.items.filter (itemMatches item_codes)
  else doc.items

/-- The matched-item amount aggregate of apply_promotional_schemes:
flt(sum(getattr(it, "base_net_amount", 0) or 0 for it in matching_items)). -/
def total_without_gst (matching : List LineItem) : Rat :=
  (matching.map (fun it => flt0 it.base_net_amount)).sum

/-- The matched-item quantity aggregate of apply_promotional_schemes:
flt(sum(getattr(it, "qty", 0) or 0 for it in matching_items)). -/
def total_qty_of (matching : List LineItem) : Rat :=
  (matching.map (fun it => flt0 it.qty)).sum

/-- Embedding of the per-scheme body of apply_promotional_schemes: party
match, item match, then the amount or quantity qualification and its
effect. -/
def apply_scheme_to_invoice (cat : Catalog) (scheme : SchemeDoc) (doc : InvoiceDoc) : InvoiceDoc :=
  let parties := extract_party_values_from_scheme scheme
  if !invoice_party_matches doc parties then doc
  else
    let item_codes := extract_item_codes_from_scheme cat scheme
    let matching := matching_items_for item_codes doc
    if matching.isEmpty then doc
    else if scheme.type_of_promo_validation == some "Based on Minimum Amount" then
      if total_without_gst matching ≥ flt0 scheme.minimum_amount then
        if flt0 scheme.discount_percentage > 0 then
          apply_discount_to_invoice doc (matchPred item_codes) (flt0 scheme.discount_percentage) scheme.name
        else doc
      else doc
    else if scheme.type_of_promo_validation == some "Based on Minimum Quantity" then
      if total_qty_of matching ≥ flt0 scheme.minimum_quantity then
        if flt0 scheme.free_quantity > 0 then
          add_free_items_to_invoice doc matching (flt0 scheme.free_quantity) scheme.name
        else doc
      else doc
    else doc

/-- Embedding of get_active_schemes_for_party.  It models frappe.get_all over
the scheme table with the filters of the source; a SQL comparison or
equality filter against a NULL stored value is not satisfied, so a scheme
with either validity bound unset (or with select_the_party unset) is
filtered out. -/
def get_active_schemes_for_party (schemes : List SchemeDoc) (today : Int)
    (party_type : String) : List String :=
  (schemes.filter (fun s =>
      s.select_the_party == some party_type &&
      (match s.valid_from with
       | some d => decide (d ≤ today)
       | none => false) &&
      (match s.valid_to with
       | some d => decide (today ≤ d)
       | none => false))).map (fun s => s.name)

/-- The scheme documents apply_promotional_schemes loads and evaluates: the
active names, resolved back to documents (a name that fails to load is
skipped). -/
def evaluated_schemes (schemes : List SchemeDoc) (today : Int) (doc : InvoiceDoc) : List SchemeDoc :=
  let party_side := if doc.doctype == "Sales Invoice" then "Selling" else "Buying"
  (get_active_schemes_for_party schemes today party_side).filterMap
    (fun nm => schemes.find? (fun s => s.name == nm))

/-- Embedding of the apply_promotional_schemes hook: non-invoice doctypes are
untouched; otherwise each active scheme for the matching side is evaluated
in order against the (progressively mutated) invoice. -/
def apply_promotional_schemes (schemes : List SchemeDoc) (cat : Catalog) (today : Int)
    (doc : InvoiceDoc) : InvoiceDoc :=
  if !(doc.doctype == "Sales Invoice" || doc.doctype == "Purchase Invoice") then doc
  else (evaluated_schemes schemes today doc).foldl
    (fun d sc => apply_scheme_to_invoice cat sc d) doc

/-- The failure modes of CustomPromotionalScheme.validate (frappe.throw). -/
inductive SchemeError where
  | date_order
  | apply_on_item_code_conflict
  | apply_on_item_group_conflict
  | missing_amount_fields
  | missing_quantity_fields
deriving DecidableEq

/-- Embedding of validate_dates. -/
def validate_dates (s : SchemeDoc) : Except SchemeError Unit :=
  match s.valid_from, s.valid_to with
  | some f, some t => if f > t then .error .date_order else .ok ()
  | _, _ => .ok ()

/-- Embedding of validate_condition_fields. -/
def validate_condition_fields (s : SchemeDoc) : Except SchemeError Unit :=
  if s.type_of_promo_validation == some "Based on Minimum Amount" then
    if !truthyRat s.minimum_amount || !truthyRat s.discount_percentage then
      .error .missing_amount_fields
    else .ok ()
  else if s.type_of_promo_validation == some "Based on Minimum Quantity" then
    if !truthyRat s.minimum_quantity || !truthyRat s.free_quantity then
      .error .missing_quantity_fields
    else .ok ()
  else .ok ()

/-- Embedding of validate_apply_on_exclusivity. -/
def validate_apply_on_exclusivity (s : SchemeDoc) : Except SchemeError Unit :=
  if s.apply_on == some "Item Code" && s.promotional_scheme_on_item_group.isNonempty then
    .error .apply_on_item_code_conflict
  else if s.apply_on == some "Item Group" && s.promotional_scheme_on_item_code.isNonempty then
    .error .apply_on_item_group_conflict
  else .ok ()

/-- Embedding of CustomPromotionalScheme.validate: the three checks run in
source order and the first throw aborts the save. -/
def validate (s : SchemeDoc) : Except SchemeError Unit :=
  match validate_dates s with
  | .error e => .error e
  | .ok _ =>
    match validate_condition_fields s with
    | .error e => .error e
    | .ok _ => validate_apply_on_exclusivity s

/-- Model of Python str.strip(): drop leading and trailing whitespace.
Implemented by structural recursion on the character list so that concrete
instances evaluate. -/
def pyStrip (s : String) : String :=
  ⟨((s.data.dropWhile (fun c => c.isWhitespace)).reverse.dropWhile
      (fun c => c.isWhitespace)).reverse⟩

namespace Report

/-- Embedding of the report-module _extract_party_values_from_scheme: raw
declared sets, with customer-group, territory and supplier-group
dimensions expanded through the party catalog and unioned into the flat
customer/supplier sets, all normalized to non-empty strings. -/
def extract_party_values_from_scheme (cat : Catalog) (s : SchemeDoc) : PartiesDict :=
  let customers := extractValuesFromChildRowsR s.customer ["customer", "value"]
  let customer_groups := extractValuesFromChildRowsR s.customer_group ["customer_group", "group"]
  let territories := extractValuesFromChildRowsR s.territory ["territory", "value"]
  let suppliers := extractValuesFromChildRowsR s.supplier ["supplier", "value"]
  let supplier_groups := extractValuesFromChildRowsR s.supplier_group ["supplier_group", "group"]
  let customers := if customer_groups ≠ ∅ then
      customers ∪ ((cat.customersInGroups customer_groups).filter (fun c => c != "")).toFinset
    else customers
  let customers := if territories ≠ ∅ then
      customers ∪ ((cat.customersInTerritories territories).filter (fun c => c != "")).toFinset
    else customers
  let suppliers := if supplier_groups ≠ ∅ then
      suppliers ∪ ((cat.suppliersInGroups supplier_groups).filter (fun c => c != "")).toFinset
    else suppliers
  { customers := customers.filter (fun c => c ≠ "")
    customer_groups := customer_groups.filter (fun c => c ≠ "")
    territories := territories.filter (fun c => c ≠ "")
    suppliers := suppliers.filter (fun c => c ≠ "")
    supplier_groups := supplier_groups.filter (fun c => c ≠ "") }

/-- Embedding of the report-module _extract_item_codes_from_scheme, which
normalizes the result to non-empty strings. -/
def extract_item_codes_from_scheme (cat : Catalog) (s : SchemeDoc) : Finset String :=
  let item_codes := extractValuesFromChildRowsR s.promotional_scheme_on_item_code ["item_code", "item"]
  let item_group_vals := extractValuesFromChildRowsR s.promotional_scheme_on_item_group ["item_group", "group"]
  let item_codes := if item_group_vals ≠ ∅ then
      item_codes ∪ (cat.itemsInGroups item_group_vals).toFinset
    else item_codes
  item_codes.filter (fun c => c ≠ "")

/-- A committed invoice row of the transaction tables the totals SQL joins
over. -/
structure StoredInvoice where
  doctype : String
  docstatus : Nat := 1
  posting_date : Int := 0
  customer : Option String := none
  supplier : Option String := none
  items : List LineItem := []

/-- COALESCE(sii.base_net_amount, sii.base_amount, sii.amount, 0): the first
non-NULL amount column. -/
def coalesceAmt (it : LineItem) : Rat :=
  match it.base_net_amount with
  | some a => a
  | none =>
    match it.base_amount with
    | some a => a
    | none =>
      match it.amount with
      | some a => a
      | none => 0

/-- The posting-date restriction of the totals SQL: BETWEEN when both bounds
are set, one-sided when only one is, absent when neither. -/
def dateOk (from_date to_date : Option Int) (d : Int) : Bool :=
  match from_date, to_date with
  | some f, some t => decide (f ≤ d ∧ d ≤ t)
  | some f, none => decide (f ≤ d)
  | none, some t => decide (d ≤ t)
  | none, none => true

/-- A SQL IN-list test against an optional column, applied only when the list
is non-empty; a NULL column value never satisfies IN. -/
def inOptList (vals : List String) (x : Option String) : Bool :=
  if vals.isEmpty then true
  else
    match x with
    | some v => vals.contains v
    | none => false

/-- The joined (header, item) rows the totals SQL aggregates, one per line
item of a committed invoice of the requested side that passes the date,
party and item predicates: party column, item code, amount, quantity. -/
def query_join_rows (store : List StoredInvoice) (isSelling : Bool)
    (from_date to_date : Option Int) (concrete_parties concrete_items : List String) :
    List (Option String × Option String × Rat × Rat) :=
  store.flatMap (fun inv =>
    let party := if isSelling then inv.customer else inv.supplier
    let header_ok := (inv.doctype == (if isSelling then "Sales Invoice" else "Purchase Invoice")) &&
      (inv.docstatus == 1) && dateOk from_date to_date inv.posting_date &&
      inOptList concrete_parties party
    if header_ok then
      (inv.items.filter (fun it => inOptList concrete_items it.item_code)).map
        (fun it => (party, it.item_code, coalesceAmt it, flt0 it.qty))
    else [])

/-- GROUP BY of the joined rows on the raw (party, item_code) key, summing
amount and quantity per group, groups listed in order of first
occurrence. -/
def group_totals (rows : List (Option String × Option String × Rat × Rat)) :
    List ((Option String × Option String) × Rat × Rat) :=
  let keys := (rows.map (fun r => (r.1, r.2.1))).dedup
  keys.map (fun k =>
    let grp := rows.filter (fun r => decide ((r.1, r.2.1) = k))
    (k, (grp.map (fun r => r.2.2.1)).sum, (grp.map (fun r => r.2.2.2)).sum))

/-- The `value or None` normalization the report applies to each SQL result
key component. -/
def normOpt : Option String → Option String
  | none => none
  | some s => if s = "" then none else some s

/-- The totals_map association list keyed by normalized (party, item) pairs;
a later binding of the same normalized key overwrites an earlier one. -/
abbrev TotalsMap := List ((Option String × Option String) × Rat × Rat)

/-- Building totals_map from the grouped SQL rows. -/
def totals_of_rows (rows : List (Option String × Option String × Rat × Rat)) : TotalsMap :=
  (group_totals rows).map (fun e => ((normOpt e.1.1, normOpt e.1.2), e.2))

/-- Embedding of _get_totals_for_scheme: effective date window (report filter
dates override the scheme dates), concrete party and item lists, the
grouped join query, and the normalized totals_map. -/
def get_totals_for_scheme (store : List StoredInvoice) (s : SchemeDoc) (party_side : String)
    (parties : List (String × String)) (items : List (Option String))
    (report_from report_to : Option Int) : TotalsMap :=
  let from_date := match report_from with
    | some d => some d
    | none => s.valid_from
  let to_date := match report_to with
    | some d => some d
    | none => s.valid_to
  let concrete_parties := (parties.map (fun p => p.2)).filter (fun v => v != "")
  let concrete_items := ((items.filterMap id).filter (fun v => v != ""))
  totals_of_rows (query_join_rows store (party_side == "Selling") from_date to_date
    concrete_parties concrete_items)

/-- Dict lookup with default on the totals_map (the last binding of a key is
the dict value). -/
def tmLookup (tm : TotalsMap) (k : Option String × Option String) : Rat × Rat :=
  match tm.reverse.find? (fun e => decide (e.1 = k)) with
  | some e => e.2
  | none => (0, 0)

/-- The all_parties set of get_data: the truthy party components of the
totals_map keys. -/
def tmTruthyParties (tm : TotalsMap) : List String :=
  ((tm.map (fun e => e.1.1)).filterMap id).dedup

/-- The per-cell eligibility evaluation of get_data (lines 572-583): the
minimum-amount and minimum-quantity rules additionally require a positive
threshold, and a scheme with no recognized validation type is eligible on
any activity. -/
def cell_eligible (s : SchemeDoc) (total_amount total_qty : Rat) : Bool :=
  let validation_type := pyStrip (s.type_of_promo_validation.getD "")
  if validation_type == "Based on Minimum Amount" then
    decide (flt0 s.minimum_amount > 0 ∧ total_amount ≥ flt0 s.minimum_amount)
  else if validation_type == "Based on Minimum Quantity" then
    decide (flt0 s.minimum_quantity > 0 ∧ total_qty ≥ flt0 s.minimum_quantity)
  else
    decide (total_amount > 0 ∨ total_qty > 0)

/-- A row of the report. -/
structure ReportRow where
  scheme_name : String
  party_type : String
  party_name : String
  apply_on : String
  item_or_group : String
  minimum_amount : Rat
  minimum_quantity : Rat
  discount_percentage : Rat
  free_quantity : Rat
  valid_from : Option Int
  valid_to : Option Int
  invoice_amount : Rat
  invoice_qty : Rat
  eligibility_status : String
deriving DecidableEq

/-- The `value or default` idiom on an optional string. -/
def orStr (o : Option String) (d : String) : String :=
  match o with
  | some v => if v != "" then v else d
  | none => d

/-- The row get_data emits for one (party, item) cell. -/
def cell_row (s : SchemeDoc) (tm : TotalsMap) (party_type party_name : String)
    (item_code : Option String) : ReportRow :=
  let totals := tmLookup tm (some party_name, item_code)
  { scheme_name := orStr s.scheme_name s.name
    party_type := party_type
    party_name := if party_name == "" then "All" else party_name
    apply_on := orStr s.apply_on "-"
    item_or_group := match item_code with
      | some c => if c != "" then c else "-"
      | none => "-"
    minimum_amount := flt0 s.minimum_amount
    minimum_quantity := flt0 s.minimum_quantity
    discount_percentage := flt0 s.discount_percentage
    free_quantity := flt0 s.free_quantity
    valid_from := s.valid_from
    valid_to := s.valid_to
    invoice_amount := totals.1
    invoice_qty := totals.2
    eligibility_status := if cell_eligible s totals.1 totals.2 then "Eligible" else "Not Eligible" }

/-- The report filter set. -/
structure ReportFilters where
  scheme_name : Option String := none
  apply_on : Option String := none
  party_type : Option String := none
  party_name : Option String := none
  item_or_group : Option String := none
  from_date : Option Int := none
  to_date : Option Int := none
  min_invoice_amount : Option Rat := none
  max_invoice_amount : Option Rat := none
  min_invoice_qty : Option Rat := none
  max_invoice_qty : Option Rat := none
  discount_min : Option Rat := none
  discount_max : Option Rat := none
  show_only_eligible : Bool := false

/-- Sorted enumeration of a string set. -/
def sortedList (s : Finset String) : List String := s.sort (· ≤ ·)

/-- The normalized party side of a scheme in get_data: anything other than
Selling or Buying defaults to Selling. -/
def party_side_of (s : SchemeDoc) : String :=
  let ps := pyStrip (s.select_the_party.getD "")
  if ps == "Selling" then "Selling"
  else if ps == "Buying" then "Buying"
  else "Selling"

/-- The explicit (party_type, party_name) list get_data builds from the
declared scope; empty means the scope is unrestricted. -/
def declared_parties (cat : Catalog) (s : SchemeDoc) : List (String × String) :=
  let pd := extract_party_values_from_scheme cat s
  let ps := pyStrip (s.select_the_party.getD "")
  if ps == "Selling" then
    if pd.customers ≠ ∅ then (sortedList pd.customers).map (fun c => ("Customer", c)) else []
  else if ps == "Buying" then
    if pd.suppliers ≠ ∅ then (sortedList pd.suppliers).map (fun n => ("Supplier", n)) else []
  else []

/-- The item enumeration of get_data: the sorted resolved codes, or the
single unrestricted marker. -/
def items_list (cat : Catalog) (s : SchemeDoc) : List (Option String) :=
  let ic := extract_item_codes_from_scheme cat s
  if ic ≠ ∅ then (sortedList ic).map some else [none]

/-- The totals_map get_data computes for one scheme. -/
def totals_for (cat : Catalog) (store : List StoredInvoice) (filters : ReportFilters)
    (s : SchemeDoc) : TotalsMap :=
  get_totals_for_scheme store s (party_side_of s) (declared_parties cat s) (items_list cat s)
    filters.from_date filters.to_date

/-- The all_parties list of get_data for one scheme. -/
def all_parties_for (cat : Catalog) (store : List StoredInvoice) (filters : ReportFilters)
    (s : SchemeDoc) : List String :=
  tmTruthyParties (totals_for cat store filters s)

/-- The party enumeration get_data finally iterates: the declared concrete
parties, or, when unrestricted, the parties observed in the totals. -/
def enumerated_parties (cat : Catalog) (store : List StoredInvoice) (filters : ReportFilters)
    (s : SchemeDoc) : List (String × String) :=
  let parties := declared_parties cat s
  if parties.isEmpty then
    if party_side_of s == "Selling" then
      (all_parties_for cat store filters s).map (fun p => ("Customer", p))
    else
      (all_parties_for cat store filters s).map (fun p => ("Supplier", p))
  else parties

/-- The rows get_data emits for one scheme (lines 554-602): the cross product
of the enumerated parties and the item list. -/
def rows_for_scheme (cat : Catalog) (store : List StoredInvoice) (filters : ReportFilters)
    (s : SchemeDoc) : List ReportRow :=
  let tm := totals_for cat store filters s
  (enumerated_parties cat store filters s).flatMap (fun pt =>
    (items_list cat s).map (fun ic => cell_row s tm pt.1 pt.2 ic))

/-- Case-insensitive substring test, as str.find(term) != -1 on lowercased
strings. -/
def strContainsSub (s t : String) : Bool :=
  if t == "" then true else (s.splitOn t).length > 1

/-- Embedding of _apply_report_filters: the conjunctive user-filter pass over
the emitted rows. -/
def apply_report_filters (rows : List ReportRow) (f : ReportFilters) : List ReportRow :=
  let rows := match f.scheme_name with
    | some v => if v != "" then rows.filter (fun r => pyStrip r.scheme_name == v) else rows
    | none => rows
  let rows := match f.party_type with
    | some v => if v != "" then rows.filter (fun r => pyStrip r.party_type == v) else rows
    | none => rows
  let rows := match f.party_name with
    | some v => if v != "" then rows.filter (fun r => r.party_name == v) else rows
    | none => rows
  let rows := match f.apply_on with
    | some v => if v != "" then rows.filter (fun r => r.apply_on == v) else rows
    | none => rows
  let rows := match f.item_or_group with
    | some v => if v != "" then rows.filter (fun r => strContainsSub r.item_or_group.toLower (pyStrip v).toLower) else rows
    | none => rows
  let rows := match f.from_date with
    | some fd => rows.filter (fun r =>
        match r.valid_to with
        | none => true
        | some vt => decide (vt ≥ fd))
    | none => rows
  let rows := match f.to_date with
    | some td => rows.filter (fun r =>
        match r.valid_from with
        | none => true
        | some vf => decide (vf ≤ td))
    | none => rows
  let rows := match f.min_invoice_amount with
    | some m => rows.filter (fun r => decide (r.invoice_amount ≥ m))
    | none => rows
  let rows := match f.max_invoice_amount with
    | some m => rows.filter (fun r => decide (r.invoice_amount ≤ m))
    | none => rows
  let rows := match f.min_invoice_qty with
    | some m => rows.filter (fun r => decide (r.invoice_qty ≥ m))
    | none => rows
  let rows := match f.max_invoice_qty with
    | some m => rows.filter (fun r => decide (r.invoice_qty ≤ m))
    | none => rows
  let rows := match f.discount_min with
    | some m => rows.filter (fun r => decide (r.discount_percentage ≥ m))
    | none => rows
  let rows := match f.discount_max with
    | some m => rows.filter (fun r => decide (r.discount_percentage ≤ m))
    | none => rows
  if f.show_only_eligible then rows.filter (fun r => r.eligibility_status.toLower == "eligible")
  else rows

/-- Embedding of get_data: scheme selection by the name/apply-on filters, the
per-scheme row build, and the final user-filter pass. -/
def get_data (schemes : List SchemeDoc) (cat : Catalog) (store : List StoredInvoice)
    (filters : ReportFilters) : List ReportRow :=
  let selected := schemes.filter (fun s =>
    (match filters.scheme_name with
     | some v => if v != "" then s.name == v else true
     | none => true) &&
    (match filters.apply_on with
     | some v => if v != "" then s.apply_on == some v else true
     | none => true))
  apply_report_filters (selected.flatMap (rows_for_scheme cat store filters)) filters

end Report

/-! Spec-side definitions used by refinement comparisons. -/

/-- Resolved flat customer set written from the spec sentence: declared
customers, customers whose group is among the declared customer-groups,
and customers whose territory is among the declared territories, unioned
into one flat party-ID set.  The declared sets are the raw per-dimension
extractions. -/
def spec_resolved_customers (cat : Catalog) (s : SchemeDoc) : Finset String :=
  extractValuesFromChildRowsR s.customer ["customer", "value"] ∪
    ((cat.customers.filter (fun c =>
        decide (c.customer_group ∈ extractValuesFromChildRowsR s.customer_group ["customer_group", "group"]))).map
      (fun c => c.name)).toFinset ∪
    ((cat.customers.filter (fun c =>
        decide (c.territory ∈ extractValuesFromChildRowsR s.territory ["territory", "value"]))).map
      (fun c => c.name)).toFinset

/-- Resolved flat supplier set written from the spec sentence: declared
suppliers plus suppliers whose group is among the declared
supplier-groups. -/
def spec_resolved_suppliers (cat : Catalog) (s : SchemeDoc) : Finset String :=
  extractValuesFromChildRowsR s.supplier ["supplier", "value"] ∪
    ((cat.suppliers.filter (fun c =>
        decide (c.supplier_group ∈ extractValuesFromChildRowsR s.supplier_group ["supplier_group", "group"]))).map
      (fun c => c.name)).toFinset

/-! Concrete documents used by witnesses and counterexamples. -/

/-- Scheme with no party scope declared on any dimension. -/
def c1Scheme : SchemeDoc := { name := "SCH-C1" }

/-- A Sales Invoice from an arbitrary customer. -/
def c1Invoice : InvoiceDoc := { doctype := "Sales Invoice", customer := some "CUST9" }

/-- Scheme whose only party scope is the customer group G1. -/
def c2Scheme : SchemeDoc :=
  { name := "SCH-C2", select_the_party := some "Selling"
    customer_group := .rows [[("customer_group", "G1")]] }

/-- Catalog with one customer CUST1 in group G1. -/
def c2Catalog : Catalog :=
  { customers := [{ name := "CUST1", customer_group := "G1", territory := "T1" }] }

/-- A Sales Invoice from CUST1 carrying no customer_group attribute. -/
def c2Invoice : InvoiceDoc := { doctype := "Sales Invoice", customer := some "CUST1" }

/-- A Sales Invoice that carries the declared customer group G1. -/
def c2InvoiceG : InvoiceDoc :=
  { doctype := "Sales Invoice", customer := some "OTHER", customer_group := some "G1" }

/-- Minimum-amount scheme with a negative threshold; it passes save-time
validation because -1 is truthy. -/
def c3Scheme : SchemeDoc :=
  { name := "SCH-C3", type_of_promo_validation := some "Based on Minimum Amount"
    minimum_amount := some (-1), discount_percentage := some 5 }

/-- Minimum-amount scheme with a positive threshold. -/
def c3wScheme : SchemeDoc :=
  { name := "SCH-C3W", type_of_promo_validation := some "Based on Minimum Amount"
    minimum_amount := some 100, discount_percentage := some 5 }

/-- Minimum-quantity scheme with a positive threshold. -/
def c3wSchemeQ : SchemeDoc :=
  { name := "SCH-C3WQ", type_of_promo_validation := some "Based on Minimum Quantity"
    minimum_quantity := some 10, free_quantity := some 2 }

/-- Selling scheme with no party scope and no item scope. -/
def c4Scheme : SchemeDoc :=
  { name := "SCH-C4", select_the_party := some "Selling"
    type_of_promo_validation := some "Based on Minimum Amount"
    minimum_amount := some 100, discount_percentage := some 5 }

/-- Empty report filter set. -/
def c4Filters : Report.ReportFilters := {}

/-- Empty catalog. -/
def c4Catalog : Catalog := {}

/-- Transaction store with one committed Sales Invoice of customer CU1. -/
def c4Store : List Report.StoredInvoice :=
  [{ doctype := "Sales Invoice", docstatus := 1, posting_date := 0, customer := some "CU1"
     items := [{ item_code := some "IT1", qty := some 2, base_net_amount := some 500 }] }]

/-- A line item with rate 100. -/
def c5Item : LineItem := { item_code := some "IT-5", rate := some 100 }

/-- Minimum-amount scheme: threshold 1000, discount 10 percent. -/
def c6SchemeA : SchemeDoc :=
  { name := "SCH-C6A", type_of_promo_validation := some "Based on Minimum Amount"
    minimum_amount := some 1000, discount_percentage := some 10 }

/-- Minimum-quantity scheme: threshold 5, free quantity 2. -/
def c6SchemeQ : SchemeDoc :=
  { name := "SCH-C6Q", type_of_promo_validation := some "Based on Minimum Quantity"
    minimum_quantity := some 5, free_quantity := some 2 }

/-- Sales Invoice whose single line sums to exactly the boundary aggregates
(base_net_amount 1000, qty 5). -/
def c6Invoice : InvoiceDoc :=
  { doctype := "Sales Invoice", customer := some "CU1"
    items := [{ item_code := some "ITEM-A", item_name := some "Item A", qty := some 5
                rate := some 200, base_net_amount := some 1000 }] }

/-- Empty catalog for the boundary scenario. -/
def c6Catalog : Catalog := {}

/-- An invoice with one existing line. -/
def c7Doc : InvoiceDoc :=
  { doctype := "Sales Invoice", items := [{ item_code := some "A", rate := some 10 }] }

/-- A matched-items list with one line. -/
def c7Matching : List LineItem :=
  [{ item_code := some "A", item_name := some "Item A", qty := some 3, rate := some 10 }]

/-- Scheme whose only party limits are buying-side (one supplier row). -/
def c9SchemeBuy : SchemeDoc := { name := "SCH-C9B", supplier := .rows [[("supplier", "SUP-1")]] }

/-- Scheme whose only party limits are selling-side (one customer value). -/
def c9SchemeSell : SchemeDoc := { name := "SCH-C9S", customer := .strs ["CUST-1"] }

/-- A Sales Invoice from a customer not mentioned anywhere. -/
def c9SalesDoc : InvoiceDoc := { doctype := "Sales Invoice", customer := some "CUST-9" }

/-- A Purchase Invoice from a supplier not mentioned anywhere. -/
def c9PurchaseDoc : InvoiceDoc := { doctype := "Purchase Invoice", supplier := some "SUP-9" }

/-- Scheme with valid_to unset. -/
def c10Scheme : SchemeDoc :=
  { name := "SCH-C10", select_the_party := some "Selling", valid_from := some 0 }

/-- Scheme with both validity bounds set. -/
def c10Other : SchemeDoc :=
  { name := "SCH-OK", select_the_party := some "Selling", valid_from := some 0, valid_to := some 10 }

/-- A Sales Invoice. -/
def c10Invoice : InvoiceDoc := { doctype := "Sales Invoice", customer := some "X" }

/-! Helper lemmas. -/

@[simp]
theorem flt0_some (v : Rat) : flt0 (some v) = v := rfl

@[simp]
theorem flt0_none : flt0 none = 0 := rfl

@[simp]
theorem failDim_empty (a : Option String) : failDim ∅ a = false := by
  simp [failDim]

/-! Claim theorems. -/

/-- C1: for every scheme whose extracted party scope is empty on every
dimension, the party-match step returns true for every transaction, so the
scheme applies regardless of the transaction party. -/
theorem c1_empty_party_scope_matches_all (s : SchemeDoc) (doc : InvoiceDoc)
    (h : extract_party_values_from_scheme s = ⟨∅, ∅, ∅, ∅, ∅⟩) :
    invoice_party_matches doc (extract_party_values_from_scheme s) = true := by
  rw [h]
  simp [invoice_party_matches, PartiesDict.has_any_party_limit]

/-- Witness for C1: a concrete scope-less scheme matches a concrete Sales
Invoice. -/
theorem c1_witness :
    extract_party_values_from_scheme c1Scheme = ⟨∅, ∅, ∅, ∅, ∅⟩ ∧
    invoice_party_matches c1Invoice (extract_party_values_from_scheme c1Scheme) = true :=
  ⟨by decide, c1_empty_party_scope_matches_all c1Scheme c1Invoice (by decide)⟩

/-- C5: applying the discount effect once with percentage P to a line with
rate R sets the rate to exactly R * (1 - P / 100) and records the discount
percentage and the applying scheme id on the line; a second application
with the same P compounds to R * (1 - P / 100) ^ 2, so the operation is
not idempotent. -/
theorem c5_discount_compounding (R P : Rat) (sch : String) (it : LineItem)
    (h : it.rate = some R) :
    (apply_discount_to_item P sch it).rate = some (R * (1 - P / 100)) ∧
    (apply_discount_to_item P sch it).discount_percentage = some P ∧
    (apply_discount_to_item P sch it).promotional_scheme_applied = some sch ∧
    (apply_discount_to_item P sch (apply_discount_to_item P sch it)).rate
      = some (R * (1 - P / 100) ^ 2) := by
  simp only [apply_discount_to_item, h, flt0_some]
  refine ⟨?_, by simp, by simp, ?_⟩
  · congr 1
    ring
  · congr 1
    ring

/-- Witness for C5: the compounding at rate 100 and percentage 10. -/
theorem c5_witness :
    c5Item.rate = some 100 ∧
    (apply_discount_to_item 10 "SCH-C5" c5Item).rate = some ((100 : Rat) * (1 - 10 / 100)) ∧
    (apply_discount_to_item 10 "SCH-C5" (apply_discount_to_item 10 "SCH-C5" c5Item)).rate
      = some ((100 : Rat) * (1 - 10 / 100) ^ 2) :=
  ⟨rfl, (c5_discount_compounding 100 10 "SCH-C5" c5Item rfl).1,
    (c5_discount_compounding 100 10 "SCH-C5" c5Item rfl).2.2.2⟩

/-- C7: the free-goods effect appends, after the existing items and one per
matched item, a new row carrying the matched item code and name, the free
quantity, zero rate and amount, the free-item marker and the scheme id,
and modifies no pre-existing line item. -/
theorem c7_free_goods_rows (doc : InvoiceDoc) (matching : List LineItem) (fq : Rat)
    (sch : String) :
    (add_free_items_to_invoice doc matching fq sch).items
      = doc.items ++ matching.map (free_item_row fq sch) ∧
    (add_free_items_to_invoice doc matching fq sch).items.length
      = doc.items.length + matching.length ∧
    (add_free_items_to_invoice doc matching fq sch).items.take doc.items.length = doc.items ∧
    ∀ it ∈ matching,
      (free_item_row fq sch it).item_code = it.item_code ∧
      (free_item_row fq sch it).item_name = it.item_name ∧
      (free_item_row fq sch it).qty = some fq ∧
      (free_item_row fq sch it).rate = some 0 ∧
      (free_item_row fq sch it).amount = some 0 ∧
      (free_item_row fq sch it).is_free_item = 1 ∧
      (free_item_row fq sch it).promotional_scheme_applied = some sch := by
  refine ⟨rfl, by simp [add_free_items_to_invoice], ?_, ?_⟩
  · simp [add_free_items_to_invoice]
  · intro it _
    simp [free_item_row]

/-- Witness for C7: the append on a concrete invoice and matched list. -/
theorem c7_witness :
    (add_free_items_to_invoice c7Doc c7Matching 2 "SCH-C7").items
      = c7Doc.items ++ c7Matching.map (free_item_row 2 "SCH-C7") ∧
    (free_item_row 2 "SCH-C7" { item_code := some "A", item_name := some "Item A"
                                qty := some 3, rate := some 10 }).qty = some 2 :=
  ⟨(c7_free_goods_rows c7Doc c7Matching 2 "SCH-C7").1,
    ((c7_free_goods_rows c7Doc c7Matching 2 "SCH-C7").2.2.2
      { item_code := some "A", item_name := some "Item A", qty := some 3, rate := some 10 }
      (by decide)).2.2.1⟩

/-- C9: a Sales Invoice matches a scheme whose declared party limits are only
on the buying-side dimensions, and a Purchase Invoice matches a scheme
whose declared party limits are only on the selling-side dimensions. -/
theorem c9_opposite_side_wildcard (s1 s2 : SchemeDoc) (docS docP : InvoiceDoc)
    (hdS : docS.doctype = "Sales Invoice")
    (h1c : (extract_party_values_from_scheme s1).customers = ∅)
    (h1g : (extract_party_values_from_scheme s1).customer_groups = ∅)
    (h1t : (extract_party_values_from_scheme s1).territories = ∅)
    (_h1n : (extract_party_values_from_scheme s1).suppliers ≠ ∅ ∨
           (extract_party_values_from_scheme s1).supplier_groups ≠ ∅)
    (hdP : docP.doctype = "Purchase Invoice")
    (h2s : (extract_party_values_from_scheme s2).suppliers = ∅)
    (h2g : (extract_party_values_from_scheme s2).supplier_groups = ∅)
    (_h2n : (extract_party_values_from_scheme s2).customers ≠ ∅ ∨
           (extract_party_values_from_scheme s2).customer_groups ≠ ∅ ∨
           (extract_party_values_from_scheme s2).territories ≠ ∅) :
    invoice_party_matches docS (extract_party_values_from_scheme s1) = true ∧
    invoice_party_matches docP (extract_party_values_from_scheme s2) = true := by
  constructor
  · simp [invoice_party_matches, hdS, h1c, h1g, h1t]
  · simp [invoice_party_matches, hdP, h2s, h2g]

/-- Witness for C9: concrete opposite-side-scoped schemes match concrete
invoices of the other side. -/
theorem c9_witness :
    (extract_party_values_from_scheme c9SchemeBuy).suppliers ≠ ∅ ∧
    (extract_party_values_from_scheme c9SchemeSell).customers ≠ ∅ ∧
    invoice_party_matches c9SalesDoc (extract_party_values_from_scheme c9SchemeBuy) = true ∧
    invoice_party_matches c9PurchaseDoc (extract_party_values_from_scheme c9SchemeSell) = true :=
  ⟨by decide, by decide,
    (c9_opposite_side_wildcard c9SchemeBuy c9SchemeSell c9SalesDoc c9PurchaseDoc rfl
      (by decide) (by decide) (by decide) (Or.inl (by decide)) rfl (by decide) (by decide)
      (Or.inl (by decide))).1,
    (c9_opposite_side_wildcard c9SchemeBuy c9SchemeSell c9SalesDoc c9PurchaseDoc rfl
      (by decide) (by decide) (by decide) (Or.inl (by decide)) rfl (by decide) (by decide)
      (Or.inl (by decide))).2⟩

/-- C6: submission-time qualification is inclusive at the boundary: a
matched-item aggregate exactly equal to the scheme threshold qualifies,
so the effect is applied (the discount given a positive percentage, the
free goods given a positive free quantity). -/
theorem c6_inclusive_boundary (cat : Catalog) (s : SchemeDoc) (doc : InvoiceDoc) :
    (invoice_party_matches doc (extract_party_values_from_scheme s) = true →
     matching_items_for (extract_item_codes_from_scheme cat s) doc ≠ [] →
     s.type_of_promo_validation = some "Based on Minimum Amount" →
     total_without_gst (matching_items_for (extract_item_codes_from_scheme cat s) doc)
       = flt0 s.minimum_amount →
     0 < flt0 s.discount_percentage →
     apply_scheme_to_invoice cat s doc
       = apply_discount_to_invoice doc (matchPred (extract_item_codes_from_scheme cat s))
           (flt0 s.discount_percentage) s.name) ∧
    (invoice_party_matches doc (extract_party_values_from_scheme s) = true →
     matching_items_for (extract_item_codes_from_scheme cat s) doc ≠ [] →
     s.type_of_promo_validation = some "Based on Minimum Quantity" →
     total_qty_of (matching_items_for (extract_item_codes_from_scheme cat s) doc)
       = flt0 s.minimum_quantity →
     0 < flt0 s.free_quantity →
     apply_scheme_to_invoice cat s doc
       = add_free_items_to_invoice doc
           (matching_items_for (extract_item_codes_from_scheme cat s) doc)
           (flt0 s.free_quantity) s.name) := by
  constructor
  · intro hm hne htype hsum hpct
    have hne' : (matching_items_for (extract_item_codes_from_scheme cat s) doc).isEmpty = false := by
      simpa [List.isEmpty_iff] using hne
    unfold apply_scheme_to_invoice
    simp [hm, hne', htype, hsum, hpct]
  · intro hm hne htype hsum hfq
    have hne' : (matching_items_for (extract_item_codes_from_scheme cat s) doc).isEmpty = false := by
      simpa [List.isEmpty_iff] using hne
    have htnoamt : (s.type_of_promo_validation == some "Based on Minimum Amount") = false := by
      rw [htype]; rfl
    unfold apply_scheme_to_invoice
    simp [hm, hne', htnoamt, htype, hsum, hfq]

/-- Witness for C6: the boundary aggregates 1000 and 5 hit exactly, on a
concrete invoice and the two concrete schemes. -/
theorem c6_witness :
    total_without_gst (matching_items_for (extract_item_codes_from_scheme c6Catalog c6SchemeA) c6Invoice)
      = flt0 c6SchemeA.minimum_amount ∧
    total_qty_of (matching_items_for (extract_item_codes_from_scheme c6Catalog c6SchemeQ) c6Invoice)
      = flt0 c6SchemeQ.minimum_quantity ∧
    apply_scheme_to_invoice c6Catalog c6SchemeA c6Invoice
      = apply_discount_to_invoice c6Invoice (matchPred (extract_item_codes_from_scheme c6Catalog c6SchemeA))
          (flt0 c6SchemeA.discount_percentage) c6SchemeA.name ∧
    apply_scheme_to_invoice c6Catalog c6SchemeQ c6Invoice
      = add_free_items_to_invoice c6Invoice
          (matching_items_for (extract_item_codes_from_scheme c6Catalog c6SchemeQ) c6Invoice)
          (flt0 c6SchemeQ.free_quantity) c6SchemeQ.name :=
  ⟨by norm_num [total_without_gst, matching_items_for, extract_item_codes_from_scheme,
      extractValuesFromChildRows, c6SchemeA, c6Catalog, c6Invoice],
    by norm_num [total_qty_of, matching_items_for, extract_item_codes_from_scheme,
      extractValuesFromChildRows, c6SchemeQ, c6Catalog, c6Invoice],
    (c6_inclusive_boundary c6Catalog c6SchemeA c6Invoice).1 (by decide) (by decide) rfl
      (by norm_num [total_without_gst, matching_items_for, extract_item_codes_from_scheme,
        extractValuesFromChildRows, c6SchemeA, c6Catalog, c6Invoice])
      (by norm_num [c6SchemeA]),
    (c6_inclusive_boundary c6Catalog c6SchemeQ c6Invoice).2 (by decide) (by decide) rfl
      (by norm_num [total_qty_of, matching_items_for, extract_item_codes_from_scheme,
        extractValuesFromChildRows, c6SchemeQ, c6Catalog, c6Invoice])
      (by norm_num [c6SchemeQ])⟩

/-- Characterization of validate_dates. -/
theorem validate_dates_ok (s : SchemeDoc) :
    validate_dates s = .ok () ↔
      ¬ ∃ f t, s.valid_from = some f ∧ s.valid_to = some t ∧ t < f := by
  unfold validate_dates
  rcases hf : s.valid_from with _ | f <;> rcases ht : s.valid_to with _ | t <;> simp

/-- Characterization of validate_condition_fields. -/
theorem validate_condition_fields_ok (s : SchemeDoc) :
    validate_condition_fields s = .ok () ↔
      ¬ ((s.type_of_promo_validation = some "Based on Minimum Amount" ∧
            (truthyRat s.minimum_amount = false ∨ truthyRat s.discount_percentage = false)) ∨
         (s.type_of_promo_validation = some "Based on Minimum Quantity" ∧
            (truthyRat s.minimum_quantity = false ∨ truthyRat s.free_quantity = false))) := by
  unfold validate_condition_fields
  split_ifs with h1 h2 h3 h4 <;> simp_all

/-- Characterization of validate_apply_on_exclusivity. -/
theorem validate_apply_on_ok (s : SchemeDoc) :
    validate_apply_on_exclusivity s = .ok () ↔
      ¬ ((s.apply_on = some "Item Code" ∧ s.promotional_scheme_on_item_group.isNonempty = true) ∨
         (s.apply_on = some "Item Group" ∧ s.promotional_scheme_on_item_code.isNonempty = true)) := by
  unfold validate_apply_on_exclusivity
  split_ifs with h1 h2 <;> simp_all

/-- Sequencing of the three validators. -/
theorem validate_ok_split (s : SchemeDoc) :
    validate s = .ok () ↔
      (validate_dates s = .ok () ∧ validate_condition_fields s = .ok () ∧
        validate_apply_on_exclusivity s = .ok ()) := by
  unfold validate
  rcases hd : validate_dates s with e | u
  · simp [hd]
  · rcases hc : validate_condition_fields s with e | u' <;> simp [hc]

/-- C8: scheme save-time validation fails exactly when the dates are both
present and out of order, or the apply-on mode conflicts with the declared
rows, or the chosen qualification rule is missing one of its two required
non-zero fields; a scheme violating none of these validates. -/
theorem c8_validate_iff (s : SchemeDoc) :
    validate s = .ok () ↔
      ¬ ((∃ f t, s.valid_from = some f ∧ s.valid_to = some t ∧ t < f) ∨
         (s.apply_on = some "Item Code" ∧ s.promotional_scheme_on_item_group.isNonempty = true) ∨
         (s.apply_on = some "Item Group" ∧ s.promotional_scheme_on_item_code.isNonempty = true) ∨
         (s.type_of_promo_validation = some "Based on Minimum Amount" ∧
            (truthyRat s.minimum_amount = false ∨ truthyRat s.discount_percentage = false)) ∨
         (s.type_of_promo_validation = some "Based on Minimum Quantity" ∧
            (truthyRat s.minimum_quantity = false ∨ truthyRat s.free_quantity = false))) := by
  rw [validate_ok_split, validate_dates_ok, validate_condition_fields_ok, validate_apply_on_ok]
  simp only [not_or]
  exact ⟨fun h => ⟨h.1, h.2.2.1, h.2.2.2, h.2.1.1, h.2.1.2⟩,
    fun h => ⟨h.1, ⟨h.2.2.2.1, h.2.2.2.2⟩, ⟨h.2.1, h.2.2.1⟩⟩⟩

/-- C10: a scheme missing either validity bound is never returned by the
active-scheme lookup (a missing stored date fails its SQL comparison), and
consequently the submission hook never evaluates it against any invoice. -/
theorem c10_missing_bounds_inactive (schemes : List SchemeDoc) (today : Int)
    (doc : InvoiceDoc) (s : SchemeDoc)
    (hmem : s ∈ schemes) (hmiss : s.valid_from = none ∨ s.valid_to = none)
    (hnodup : (schemes.map SchemeDoc.name).Nodup) :
    (∀ pt, s.name ∉ get_active_schemes_for_party schemes today pt) ∧
    s ∉ evaluated_schemes schemes today doc := by
  have key : ∀ pt, s.name ∉ get_active_schemes_for_party schemes today pt := by
    intro pt hact
    unfold get_active_schemes_for_party at hact
    rw [List.mem_map] at hact
    obtain ⟨s2, hs2, hname⟩ := hact
    rw [List.mem_filter] at hs2
    obtain ⟨hs2mem, hs2pred⟩ := hs2
    have heq : s2 = s := List.inj_on_of_nodup_map hnodup hs2mem hmem hname
    subst heq
    rcases hmiss with h | h <;> rw [h] at hs2pred <;> simp at hs2pred
  refine ⟨key, ?_⟩
  intro hev
  unfold evaluated_schemes at hev
  rw [List.mem_filterMap] at hev
  obtain ⟨nm, hnm, hfind⟩ := hev
  have hp := List.find?_some hfind
  have hb : (s.name == nm) = true := by simpa using hp
  have hnmeq : nm = s.name := (beq_iff_eq.mp hb).symm
  exact key _ (hnmeq ▸ hnm)

/-- Witness for C10: a concrete scheme with valid_to unset is inactive and
unevaluated, beside a fully dated scheme. -/
theorem c10_witness :
    c10Scheme ∈ [c10Scheme, c10Other] ∧
    (c10Scheme.valid_from = none ∨ c10Scheme.valid_to = none) ∧
    ([c10Scheme, c10Other].map SchemeDoc.name).Nodup ∧
    c10Scheme.name ∉ get_active_schemes_for_party [c10Scheme, c10Other] 5 "Selling" ∧
    c10Scheme ∉ evaluated_schemes [c10Scheme, c10Other] 5 c10Invoice :=
  ⟨by decide, Or.inr rfl, by decide,
    (c10_missing_bounds_inactive [c10Scheme, c10Other] 5 c10Invoice c10Scheme (by decide)
      (Or.inr rfl) (by decide)).1 "Selling",
    (c10_missing_bounds_inactive [c10Scheme, c10Other] 5 c10Invoice c10Scheme (by decide)
      (Or.inr rfl) (by decide)).2⟩

/-- C3 (amended): the report labels a cell Eligible iff the scheme threshold
is positive AND the historical aggregate reaches it; when the threshold is
positive this coincides with the submission-time comparison (aggregate >=
threshold) applied to the historical totals, but for a non-positive
threshold the report labels Not Eligible although the submission-time
comparison passes. -/
theorem c3_report_eligibility (s : SchemeDoc) (ta tq : Rat) (matching : List LineItem) :
    (pyStrip (s.type_of_promo_validation.getD "") = "Based on Minimum Amount" →
      (Report.cell_eligible s ta tq = true ↔
        0 < flt0 s.minimum_amount ∧ flt0 s.minimum_amount ≤ ta)) ∧
    (pyStrip (s.type_of_promo_validation.getD "") = "Based on Minimum Quantity" →
      (Report.cell_eligible s ta tq = true ↔
        0 < flt0 s.minimum_quantity ∧ flt0 s.minimum_quantity ≤ tq)) ∧
    (pyStrip (s.type_of_promo_validation.getD "") = "Based on Minimum Amount" →
      0 < flt0 s.minimum_amount →
      (Report.cell_eligible s (total_without_gst matching) tq = true ↔
        flt0 s.minimum_amount ≤ total_without_gst matching)) ∧
    (pyStrip (s.type_of_promo_validation.getD "") = "Based on Minimum Quantity" →
      0 < flt0 s.minimum_quantity →
      (Report.cell_eligible s ta (total_qty_of matching) = true ↔
        flt0 s.minimum_quantity ≤ total_qty_of matching)) := by
  refine ⟨fun h => ?_, fun h => ?_, fun h hm => ?_, fun h hm => ?_⟩ <;>
    simp [Report.cell_eligible, h, *]

/-- Counterexample for C3: a scheme with minimum_amount -1 passes save-time
validation, the submission-time comparison (aggregate >= minimum) holds at
aggregate 0, yet the report cell is labeled Not Eligible. -/
theorem c3_counterexample :
    validate c3Scheme = .ok () ∧
    flt0 c3Scheme.minimum_amount ≤ total_without_gst [] ∧
    Report.cell_eligible c3Scheme (total_without_gst []) 0 = false := by
  refine ⟨by rfl, ?_, ?_⟩
  · norm_num [total_without_gst, c3Scheme]
  · norm_num [Report.cell_eligible, total_without_gst, c3Scheme, pyStrip]

/-- Witness for C3: the amended rule at a positive threshold, in both the
amount and the quantity form. -/
theorem c3_witness :
    pyStrip (c3wScheme.type_of_promo_validation.getD "") = "Based on Minimum Amount" ∧
    Report.cell_eligible c3wScheme 150 0 = true ∧
    pyStrip (c3wSchemeQ.type_of_promo_validation.getD "") = "Based on Minimum Quantity" ∧
    Report.cell_eligible c3wSchemeQ 0 10 = true :=
  ⟨by decide,
    ((c3_report_eligibility c3wScheme 150 0 []).1 (by decide)).mpr
      (by norm_num [c3wScheme]),
    by decide,
    ((c3_report_eligibility c3wSchemeQ 0 10 []).2.1 (by decide)).mpr
      (by norm_num [c3wSchemeQ])⟩

/-- Counterexample for C2: the scheme declares only customer group G1 and the
catalog places CUST1 in G1, so the report-side flat party set contains
CUST1; yet the matcher, fed the submit-time extraction, rejects a Sales
Invoice from CUST1 because no group expansion happens on that path and the
invoice carries no customer_group attribute. -/
theorem c2_counterexample :
    "CUST1" ∈ (Report.extract_party_values_from_scheme c2Catalog c2Scheme).customers ∧
    invoice_party_matches c2Invoice (extract_party_values_from_scheme c2Scheme) = false := by
  decide

/-- C2 (amended): only the report-side extractor expands customer-groups,
territories and supplier-groups through the party catalog into the flat
party sets (up to discarding empty-string ids); the submit-time extractor
returns the raw declared sets unexpanded, and for a scheme declaring only
customer groups the matcher instead tests the transaction's own
customer_group attribute for membership in the declared groups. -/
theorem c2_expansion_locus (cat : Catalog) (s : SchemeDoc) :
    ((Report.extract_party_values_from_scheme cat s).customers
       = (spec_resolved_customers cat s).filter (fun c => c ≠ "")) ∧
    ((Report.extract_party_values_from_scheme cat s).suppliers
       = (spec_resolved_suppliers cat s).filter (fun c => c ≠ "")) ∧
    (∀ doc : InvoiceDoc, doc.doctype = "Sales Invoice" →
      (extract_party_values_from_scheme s).customers = ∅ →
      (extract_party_values_from_scheme s).territories = ∅ →
      (extract_party_values_from_scheme s).suppliers = ∅ →
      (extract_party_values_from_scheme s).supplier_groups = ∅ →
      (extract_party_values_from_scheme s).customer_groups ≠ ∅ →
      (invoice_party_matches doc (extract_party_values_from_scheme s) = true ↔
        truthyStr doc.customer_group = true ∧
        doc.customer_group.getD "" ∈ (extract_party_values_from_scheme s).customer_groups)) := by
  refine ⟨?_, ?_, ?_⟩
  · ext x
    by_cases hG : extractValuesFromChildRowsR s.customer_group ["customer_group", "group"] = ∅ <;>
      by_cases hT : extractValuesFromChildRowsR s.territory ["territory", "value"] = ∅ <;>
        simp [Report.extract_party_values_from_scheme, spec_resolved_customers, hG, hT,
          Catalog.customersInGroups, Catalog.customersInTerritories, List.mem_filter,
          List.mem_map] <;> aesop
  · ext x
    by_cases hSG : extractValuesFromChildRowsR s.supplier_group ["supplier_group", "group"] = ∅ <;>
      simp [Report.extract_party_values_from_scheme, spec_resolved_suppliers, hSG,
        Catalog.suppliersInGroups, List.mem_filter, List.mem_map]
    aesop
  · intro doc hdoct hc ht hs hsg hg
    simp [invoice_party_matches, failDim, PartiesDict.has_any_party_limit, hdoct, hc, ht,
      hs, hsg, hg]

/-- Witness for C2: with the group-only scheme, a Sales Invoice carrying the
declared customer group matches through the group-membership test. -/
theorem c2_witness :
    (extract_party_values_from_scheme c2Scheme).customer_groups ≠ ∅ ∧
    invoice_party_matches c2InvoiceG (extract_party_values_from_scheme c2Scheme) = true :=
  ⟨by decide,
    ((c2_expansion_locus c2Catalog c2Scheme).2.2 c2InvoiceG rfl (by decide) (by decide)
      (by decide) (by decide) (by decide)).mpr (by decide)⟩

/-- Values produced by normOpt are non-empty. -/
theorem normOpt_some_ne {x : Option String} {p : String}
    (h : Report.normOpt x = some p) : p ≠ "" := by
  cases x with
  | none => simp [Report.normOpt] at h
  | some s =>
    by_cases hs : s = "" <;> simp [Report.normOpt, hs] at h
    exact h ▸ hs

/-- The truthy parties of a totals_map are, as a set, the normalized truthy
party components of the underlying joined query rows. -/
theorem tmTruthyParties_of_rows (rows : List (Option String × Option String × Rat × Rat)) :
    (Report.tmTruthyParties (Report.totals_of_rows rows)).toFinset
      = (rows.filterMap (fun r => Report.normOpt r.1)).toFinset := by
  unfold Report.tmTruthyParties Report.totals_of_rows Report.group_totals
  ext a
  simp only [List.map_map, List.mem_toFinset, List.mem_filterMap,
    List.mem_map, List.mem_dedup, Function.comp, Option.mem_def, id]
  constructor
  · rintro ⟨x, ⟨k, ⟨r, hr, hk⟩, hx⟩, hid⟩
    subst hk
    subst hx
    exact ⟨r, hr, hid⟩
  · rintro ⟨r, hr, hn⟩
    exact ⟨some a, ⟨(r.1, r.2.1), ⟨r, hr, rfl⟩, hn⟩, rfl⟩

/-- Every truthy party of a totals_map is a non-empty string. -/
theorem tmTruthyParties_ne_empty (rows : List (Option String × Option String × Rat × Rat)) :
    ∀ p ∈ Report.tmTruthyParties (Report.totals_of_rows rows), p ≠ "" := by
  intro p hp
  rw [← List.mem_toFinset, tmTruthyParties_of_rows, List.mem_toFinset, List.mem_filterMap] at hp
  obtain ⟨r, _, hn⟩ := hp
  exact normOpt_some_ne hn

/-- Mapping party_name over the cross-product rows of a party list yields the
parties, repeated once per item. -/
theorem rows_map_party_name (aps : List String) (hne : ∀ p ∈ aps, p ≠ "")
    (tm : Report.TotalsMap) (s : SchemeDoc) (PT : String) (items : List (Option String)) :
    ((aps.map (fun p => (PT, p))).flatMap
        (fun pt => items.map (fun ic => Report.cell_row s tm pt.1 pt.2 ic))).map
      Report.ReportRow.party_name
      = aps.flatMap (fun p => List.replicate items.length p) := by
  induction aps with
  | nil => simp
  | cons p t ih =>
    have hp0 : p ≠ "" := hne p (List.mem_cons_self _ _)
    have ht0 : ∀ q ∈ t, q ≠ "" := fun q hq => hne q (List.mem_cons_of_mem _ hq)
    simp only [List.map_cons, List.flatMap_cons, List.map_append, ih ht0]
    congr 1
    simp [Report.cell_row, hp0, Function.comp_def, List.map_const']

/-- Length of a flat-mapped replicate. -/
theorem flatMap_replicate_length (aps : List String) (n : Nat) :
    (aps.flatMap (fun p => List.replicate n p)).length = aps.length * n := by
  induction aps with
  | nil => simp
  | cons p t ih => simp [ih, Nat.succ_mul, Nat.add_comm]

/-- Counterexample for C4: for an unrestricted Selling scheme and a totals
query that observes no parties (empty transaction store), the report emits
no row at all for the scheme; in particular no sentinel "All" row is
emitted, contrary to the claim. -/
theorem c4_counterexample :
    Report.rows_for_scheme c4Catalog [] c4Filters c4Scheme = [] ∧
    Report.get_data [c4Scheme] c4Catalog [] c4Filters = [] ∧
    ¬ ∃ r ∈ Report.get_data [c4Scheme] c4Catalog [] c4Filters, r.party_name = "All" := by
  refine ⟨by decide, by decide, ?_⟩
  rintro ⟨r, hr, _⟩
  have h2 : Report.get_data [c4Scheme] c4Catalog [] c4Filters = [] := by decide
  rw [h2] at hr
  exact List.not_mem_nil r hr

/-- C4 (amended): for a scheme whose party scope resolves to no concrete
party, the emitted rows enumerate exactly the concrete parties observed in
the historical-totals query result, one row per observed party per
resolved item; when no concrete party was observed, no row is emitted for
the scheme (the "All" sentinel is not produced on this path). -/
theorem c4_lazy_party_enumeration (cat : Catalog) (store : List Report.StoredInvoice)
    (filters : Report.ReportFilters) (s : SchemeDoc)
    (hp : Report.declared_parties cat s = []) :
    ((Report.rows_for_scheme cat store filters s).map Report.ReportRow.party_name
       = (Report.all_parties_for cat store filters s).flatMap
           (fun p => List.replicate (Report.items_list cat s).length p)) ∧
    ((Report.rows_for_scheme cat store filters s).length
       = (Report.all_parties_for cat store filters s).length
           * (Report.items_list cat s).length) ∧
    (∀ r ∈ Report.rows_for_scheme cat store filters s,
       r.party_name ∈ Report.all_parties_for cat store filters s) ∧
    (Report.all_parties_for cat store filters s = [] →
       Report.rows_for_scheme cat store filters s = []) ∧
    ((Report.all_parties_for cat store filters s).toFinset
       = ((Report.query_join_rows store (Report.party_side_of s == "Selling")
             (match filters.from_date with
              | some d => some d
              | none => s.valid_from)
             (match filters.to_date with
              | some d => some d
              | none => s.valid_to)
             (((Report.declared_parties cat s).map (fun p => p.2)).filter (fun v => v != ""))
             (((Report.items_list cat s).filterMap id).filter (fun v => v != ""))).filterMap
           (fun r => Report.normOpt r.1)).toFinset) := by
  have hne : ∀ p ∈ Report.all_parties_for cat store filters s, p ≠ "" := by
    intro p hp'
    unfold Report.all_parties_for Report.totals_for Report.get_totals_for_scheme at hp'
    exact tmTruthyParties_ne_empty _ p hp'
  have hrows : Report.rows_for_scheme cat store filters s
      = ((Report.all_parties_for cat store filters s).map
          (fun p => ((if Report.party_side_of s == "Selling" then "Customer" else "Supplier"), p))).flatMap
        (fun pt => (Report.items_list cat s).map
          (fun ic => Report.cell_row s (Report.totals_for cat store filters s) pt.1 pt.2 ic)) := by
    unfold Report.rows_for_scheme Report.enumerated_parties
    rw [hp]
    by_cases hsell : (Report.party_side_of s == "Selling") = true <;> simp [hsell]
  have hmap : (Report.rows_for_scheme cat store filters s).map Report.ReportRow.party_name
      = (Report.all_parties_for cat store filters s).flatMap
          (fun p => List.replicate (Report.items_list cat s).length p) := by
    rw [hrows]
    exact rows_map_party_name _ hne _ _ _ _
  have hlen : (Report.rows_for_scheme cat store filters s).length
      = (Report.all_parties_for cat store filters s).length * (Report.items_list cat s).length := by
    rw [← List.length_map (Report.rows_for_scheme cat store filters s) Report.ReportRow.party_name,
      hmap, flatMap_replicate_length]
  refine ⟨hmap, hlen, ?_, ?_, ?_⟩
  · intro r hr
    have : r.party_name ∈ (Report.rows_for_scheme cat store filters s).map
        Report.ReportRow.party_name := List.mem_map_of_mem _ hr
    rw [hmap] at this
    simp only [List.mem_flatMap, List.mem_replicate] at this
    obtain ⟨p, hpmem, _, hpe⟩ := this
    exact hpe ▸ hpmem
  · intro h0
    have := hlen
    rw [h0] at this
    simp only [List.length_nil, Nat.zero_mul] at this
    exact List.length_eq_zero.mp this
  · unfold Report.all_parties_for Report.totals_for Report.get_totals_for_scheme
    exact tmTruthyParties_of_rows _

/-- Witness for C4: on a store observing customer CU1, the unrestricted
scheme emits exactly the CU1 rows. -/
theorem c4_witness :
    Report.declared_parties c4Catalog c4Scheme = [] ∧
    (Report.rows_for_scheme c4Catalog c4Store c4Filters c4Scheme).map Report.ReportRow.party_name
      = (Report.all_parties_for c4Catalog c4Store c4Filters c4Scheme).flatMap
          (fun p => List.replicate (Report.items_list c4Catalog c4Scheme).length p) :=
  ⟨by decide,
    (c4_lazy_party_enumeration c4Catalog c4Store c4Filters c4Scheme (by decide)).1⟩

end PromoScheme
